import Mathlib

/-
Verification of the OVN plugin (networking_ovn/plugin.py): a shallow
embedding of the security-rule-to-ACL compiler, the binding-profile
validation, the port-option resolver and the topology synchronization
flows, together with theorems settling the spec claims about them.

Modelling conventions:
- Python dictionaries coming from the orchestration framework (ports,
  binding profiles) are modelled as records or association lists; a
  dict key that may be absent becomes an Option field.
- The model adapter (the external record store) is modelled as total
  lookup functions passed in as parameters; the per-call caches of the
  source are elided because lookups are pure, so a cache hit and a
  fresh query return the same value.
- Topology-store commands become values of an operation type; a flow
  returns the list of operations it adds to its transactions.
-/

namespace NetworkingOvn

/-- Direction of a security-group rule; the data model restricts the
field to ingress or egress. -/
inductive Direction where
  | ingress
  | egress
deriving DecidableEq

/-- A value stored in a binding profile dictionary: a string or an
integer. -/
inductive PVal where
  | s (v : String)
  | i (v : Int)
deriving DecidableEq

/-- The declared type of a binding-profile parameter. -/
inductive PType where
  | str
  | int
deriving DecidableEq

/-- isinstance check of a profile value against a parameter type. -/
def ptypeMatches : PVal → PType → Bool
  | .s _, .str => true
  | .i _, .int => true
  | _, _ => false

/-- String rendering of a profile value (used where Python would pass
the raw value into a lookup). -/
def pvalToStr : PVal → String
  | .s v => v
  | .i v => toString v

/-- Errors raised by the plugin operations. -/
inductive Err where
  | invalidInput (msg : String)
  | portNotFound (id : String)
  | runtimeError (msg : String)
  | serviceUnavailable
deriving DecidableEq

/-- One fixed IP of a port: subnet id and address. -/
structure FixedIp where
  subnet_id : String
  ip_address : String
deriving DecidableEq

/-- One allowed-address pair of a port (only the MAC is read). -/
structure AddressPair where
  mac_address : String
deriving DecidableEq

/-- A row of the port/security-group binding table. -/
structure PortBinding where
  port_id : String
  security_group_id : String
deriving DecidableEq

/-- A subnet record as read from the model adapter. -/
structure Subnet where
  id : String
  ip_version : Nat
  cidr : String
deriving DecidableEq

/-- A security-group rule record. Optional columns are None-able in
the record store; Python truthiness on them is modelled explicitly. -/
structure SGRule where
  direction : Direction
  ethertype : String
  remote_ip_prefix : Option String
  remote_group_id : Option String
  protocol : Option String
  port_range_min : Option Int
  port_range_max : Option Int
deriving DecidableEq

/-- A security group with its rules. -/
structure SecurityGroup where
  id : String
  security_group_rules : List SGRule
deriving DecidableEq

/-- A port record as handed to the plugin by the orchestration
framework. fixed_ips is Option to model presence of the dict key:
none means the key is absent, some l means the key maps to l. -/
structure Port where
  id : String
  network_id : String
  name : String
  mac_address : String
  admin_state_up : Bool
  fixed_ips : Option (List FixedIp)
  security_groups : List String
  allowed_address_pairs : List AddressPair
deriving DecidableEq

/-- A network record; provider attributes are optional columns. -/
structure Network where
  id : String
  name : String
  physnet : Option String
  nettype : Option String
  segid : Option Int
deriving DecidableEq

/-- An add_acl command: the columns of the ACL row it would create. -/
structure AclCmd where
  lswitch : String
  lport : String
  priority : Nat
  action : String
  direction : String
  acl_match : String
  external_ids_lport : String
deriving DecidableEq

/-- The dedup key used by the compiler: (direction, priority, action,
match). -/
abbrev AclKey := String × Nat × String × String

/-- Key extraction as read off the command columns. -/
def aclKey (c : AclCmd) : AclKey :=
  (c.direction, c.priority, c.action, c.acl_match)

/-- Python truthiness of an optional string column. -/
def truthyStr : Option String → Bool
  | none => false
  | some s => s != ""

/-- Python truthiness of an optional integer column (0 is falsy). -/
def truthyInt : Option Int → Bool
  | none => false
  | some n => n != 0

/-- Python "%s" formatting of an optional string (None prints as
"None"). -/
def pyStr : Option String → String
  | none => "None"
  | some s => s

/-- Modelled from the spec: the priority of drop entries; the
constants module is not under src/. The spec only fixes that allow
entries sit at a higher priority than drop entries. -/
def ACL_PRIORITY_DROP : Nat := 1001

/-- Modelled from the spec: the priority of allow entries, higher
than the drop priority. -/
def ACL_PRIORITY_ALLOW : Nat := 1002

/-- Modelled from the spec: action name for drop entries (section 3
lists the actions allow, allow-related, drop). -/
def ACL_ACTION_DROP : String := "drop"

/-- Modelled from the spec: action name for plain allow entries. -/
def ACL_ACTION_ALLOW : String := "allow"

/-- Modelled from the spec: action name for allow-related entries. -/
def ACL_ACTION_ALLOW_RELATED : String := "allow-related"

/-- Modelled from the spec: the derived logical-switch name, a stable
function of the model id (utils module is not under src/). -/
def ovn_name (id : String) : String := "neutron-" ++ id

/-- Models Python port.get(key, []) for the list-of-group-ids values
of a port dictionary: the only key of an orchestration-framework port
dict holding security group ids is "security_groups" (plural); any
other key is absent and yields the default. -/
def port_get_list (port : Port) (key : String) : List String :=
  if key == "security_groups" then port.security_groups else []

/-- _acl_direction: the port-side match token and the remote-side
port field for a rule direction. -/
def acl_direction (r : SGRule) (port : Port) : String × String :=
  match r.direction with
  | .ingress => ("outport == \"" ++ port.id ++ "\"", "inport")
  | .egress => ("inport == \"" ++ port.id ++ "\"", "outport")

/-- _acl_ethertype: the address-family filter token and the ip/icmp
protocol-family tags. -/
def acl_ethertype (r : SGRule) : String × Option String × Option String :=
  if r.ethertype == "IPv4" then (" && ip4", some "ip4", some "icmp4")
  else if r.ethertype == "IPv6" then (" && ip6", some "ip6", some "icmp6")
  else ("", none, none)

/-- _acl_remote_ip_prefix: the source/destination prefix clause. -/
def acl_remote_ip_prefix (r : SGRule) (ip : Option String) : String :=
  if !truthyStr r.remote_ip_prefix then ""
  else
    let src_or_dst := match r.direction with
      | .ingress => "src"
      | .egress => "dst"
    " && " ++ pyStr ip ++ "." ++ src_or_dst ++ " == " ++
      (r.remote_ip_prefix.getD "")

/-- _get_port_security_group_bindings: the binding rows of one
security group. -/
def get_port_security_group_bindings (bindings : List PortBinding)
    (sgId : String) : List PortBinding :=
  bindings.filter (fun b => b.security_group_id == sgId)

/-- _acl_remote_group_id: the remote-group membership clause; the
returned Bool is the empty-match signal (rule can never match). -/
def acl_remote_group_id (bindings : List PortBinding) (r : SGRule)
    (port : Port) (remote_portdir : String) : String × Bool :=
  if !truthyStr r.remote_group_id then ("", false)
  else
    let sg_ports :=
      (get_port_security_group_bindings bindings (r.remote_group_id.getD "")
        ).filter (fun p => p.port_id != port.id)
    if sg_ports.isEmpty then ("", true)
    else
      let m := " && " ++ remote_portdir ++ " == \x7b"
      let m := sg_ports.foldl (fun acc p => acc ++ "\"" ++ p.port_id ++ "\",") m
      let m := if m.back = ',' then m.dropRight 1 else m
      (m ++ "\x7d", false)

/-- _acl_protocol_and_ports: protocol tag plus optional destination
port (or ICMP type) range clauses; a min or max of -1 is treated as
unspecified, and Python truthiness makes 0 and None unspecified too. -/
def acl_protocol_and_ports (r : SGRule) (icmp : Option String) : String :=
  let pp : Option String × String :=
    if r.protocol == some "tcp" || r.protocol == some "udp" then
      (r.protocol, (r.protocol.getD "") ++ ".dst")
    else if r.protocol == some "icmp" then
      (icmp, pyStr icmp ++ ".type")
    else (none, "")
  let protocol := pp.1
  let port_match := pp.2
  if truthyStr protocol then
    let m := " && " ++ pyStr protocol
    let m := if truthyInt r.port_range_min && r.port_range_min != some (-1) then
        m ++ " && " ++ port_match ++ " >= " ++ toString (r.port_range_min.getD 0)
      else m
    let m := if truthyInt r.port_range_max && r.port_range_max != some (-1) then
        m ++ " && " ++ port_match ++ " <= " ++ toString (r.port_range_max.getD 0)
      else m
    m
  else ""

/-- _add_sg_rule_acl_for_port: the full match for one rule on one
port, returning none when the remote group has no other members. -/
def add_sg_rule_acl_for_port (bindings : List PortBinding) (port : Port)
    (r : SGRule) : Option AclCmd :=
  let dm := acl_direction r port
  let em := acl_ethertype r
  let m := dm.1 ++ em.1
  let m := m ++ acl_remote_ip_prefix r em.2.1
  let gm := acl_remote_group_id bindings r port dm.2
  if gm.2 then none
  else
    let m := m ++ gm.1
    let m := m ++ acl_protocol_and_ports r em.2.2
    let dir := match r.direction with
      | .ingress => "to-lport"
      | .egress => "from-lport"
    some { lswitch := ovn_name port.network_id,
           lport := port.id,
           priority := ACL_PRIORITY_ALLOW,
           action := ACL_ACTION_ALLOW_RELATED,
           direction := dir,
           acl_match := m,
           external_ids_lport := port.id }

/-- _add_acl_cmd: insert a command into the per-port dedup dictionary
unless its (direction, priority, action, match) key is present. -/
def add_acl_cmd (acls : List (AclKey × AclCmd)) :
    Option AclCmd → List (AclKey × AclCmd)
  | none => acls
  | some cmd =>
    if acls.any (fun kv => decide (kv.1 = aclKey cmd)) then acls
    else acls ++ [(aclKey cmd, cmd)]

/-- _add_acl_dhcp: one bootstrap allow entry per IPv4 fixed IP,
letting DHCP replies from the local subnet through. The fixed_ips key
is present on every port handed to the compiler. -/
def add_acl_dhcp (get_subnet : String → Subnet) (port : Port) : List AclCmd :=
  (port.fixed_ips.getD []).filterMap (fun ip =>
    let subnet := get_subnet ip.subnet_id
    if subnet.ip_version != 4 then none
    else some { lswitch := ovn_name port.network_id,
                lport := port.id,
                priority := ACL_PRIORITY_ALLOW,
                action := ACL_ACTION_ALLOW,
                direction := "to-lport",
                acl_match := "outport == \"" ++ port.id ++
                  "\" && ip4 && ip4.src == " ++ subnet.cidr ++
                  " && udp && udp.src == 67 && udp.dst == 68",
                external_ids_lport := port.id })

/-- _drop_all_ip_traffic_for_port: the two default-deny entries. -/
def drop_all_ip_traffic_for_port (port : Port) : List AclCmd :=
  [("from-lport", "inport"), ("to-lport", "outport")].map (fun dp =>
    { lswitch := ovn_name port.network_id,
      lport := port.id,
      priority := ACL_PRIORITY_DROP,
      action := ACL_ACTION_DROP,
      direction := dp.1,
      acl_match := dp.2 ++ " == \"" ++ port.id ++ "\" && ip",
      external_ids_lport := port.id })

/-- The per-rule section of _add_acls: the dedup dictionary built by
iterating every rule of every group on the port. -/
def rule_acls (gsg : String → SecurityGroup) (bindings : List PortBinding)
    (port : Port) : List (AclKey × AclCmd) :=
  (port_get_list port "security_groups").foldl
    (fun acls sg_id =>
      (gsg sg_id).security_group_rules.foldl
        (fun acls r => add_acl_cmd acls (add_sg_rule_acl_for_port bindings port r))
        acls)
    []

/-- _add_acls: the full list of ACL commands the compiler adds to the
transaction for one port, in submission order: nothing for an
unsecured port, else the two drop entries, the DHCP bootstrap
entries, then the deduplicated per-rule entries. -/
def add_acls (gsg : String → SecurityGroup) (get_subnet : String → Subnet)
    (bindings : List PortBinding) (port : Port) : List AclCmd :=
  let sec_groups := port_get_list port "security_groups"
  if sec_groups.isEmpty then []
  else
    drop_all_ip_traffic_for_port port ++
    add_acl_dhcp get_subnet port ++
    (rule_acls gsg bindings port).map Prod.snd

/-- _get_allowed_mac_addresses_from_port: the own MAC plus every
allowed-address-pair MAC; the Python set is modelled as the insertion
list with duplicates erased. -/
def get_allowed_mac_addresses_from_port (port : Port) : List String :=
  (port.mac_address :: port.allowed_address_pairs.map
    (fun a => a.mac_address)).eraseDups

/-- The resolved topology-store shape of a port (OvnPortInfo). -/
structure OvnPortInfo where
  type : Option String
  options : Option (List (String × PVal))
  addresses : List String
  port_security : List String
  parent_name : Option PVal
  tag : Option PVal
deriving DecidableEq

/-- Python truthiness of an optional profile value. -/
def truthyPVal : Option PVal → Bool
  | none => false
  | some (.s v) => v != ""
  | some (.i n) => n != 0

/-- _get_ovn_port_options: VTEP ports get the sentinel address and no
MAC filtering; plain ports get one "<mac> <ip>" entry per fixed IP
when the fixed_ips key is present, the bare MAC when it is absent. -/
def get_ovn_port_options (binding_profile : List (String × PVal))
    (port : Port) : OvnPortInfo :=
  let vtep_physical_switch := binding_profile.lookup "vtep_physical_switch"
  if truthyPVal vtep_physical_switch then
    let vtep_logical_switch := binding_profile.lookup "vtep_logical_switch"
    { type := some "vtep",
      options := some
        [("vtep_physical_switch", vtep_physical_switch.getD (.s "")),
         ("vtep_logical_switch", vtep_logical_switch.getD (.s ""))],
      addresses := ["unknown"],
      port_security := [],
      parent_name := none,
      tag := none }
  else
    { type := none,
      options := none,
      addresses := match port.fixed_ips with
        | some ips => ips.map (fun ip => port.mac_address ++ " " ++ ip.ip_address)
        | none => [port.mac_address],
      port_security := get_allowed_mac_addresses_from_port port,
      parent_name := binding_profile.lookup "parent_name",
      tag := binding_profile.lookup "tag" }

/-- Modelled from the spec: OVN_PORT_BINDING_PROFILE_PARAMS (constants
module not under src/). The recognized parameter groups of a binding
profile, each key with its declared type: the trunk group
(parent_name: string, tag: integer) and the VTEP group
(vtep_physical_switch, vtep_logical_switch: strings). -/
def OVN_PORT_BINDING_PROFILE_PARAMS : List (List (String × PType)) :=
  [[("parent_name", .str), ("tag", .int)],
   [("vtep_physical_switch", .str), ("vtep_logical_switch", .str)]]

/-- The group-matching loop of _get_data_from_binding_profile: walk
the recognized parameter groups accumulating the recognized entries;
continue past groups contributing nothing, raise when the accumulated
entries cover only part of a group or when the profile holds more
keys than the matched group, stop at the first fully matched group.
Returns none when no group key occurred at all. -/
def bindingProfileLoop (profile : List (String × PVal)) :
    List (List (String × PType)) → List (String × PVal) →
    Except Err (Option (List (String × PVal) × List (String × PType)))
  | [], _ => .ok none
  | param_set :: rest, param_dict =>
    let param_dict := param_dict ++ param_set.filterMap (fun kt =>
      (profile.lookup kt.1).map (fun v => (kt.1, v)))
    if param_dict.length == 0 then bindingProfileLoop profile rest param_dict
    else if param_dict.length != param_set.length then
      .error (.invalidInput "Invalid binding:profile. keys are all required.")
    else if profile.length != param_set.length then
      .error (.invalidInput "Invalid binding:profile. too many parameters")
    else .ok (some (param_dict, param_set))

/-- The isinstance validation over the matched parameter group. -/
def validateParamTypes (param_dict : List (String × PVal))
    (param_set : List (String × PType)) : Except Err Unit :=
  if param_set.any (fun kt =>
      match param_dict.lookup kt.1 with
      | some v => !ptypeMatches v kt.2
      | none => false) then
    .error (.invalidInput "Invalid binding:profile. value invalid type")
  else .ok ()

/-- The parent-name resolution check: get_port must find the port. -/
def validateParentName (ports : List String)
    (param_dict : List (String × PVal))
    (param_set : List (String × PType)) : Except Err Unit :=
  if param_set.any (fun kt => kt.1 == "parent_name") then
    match param_dict.lookup "parent_name" with
    | some v =>
      if ports.contains (pvalToStr v) then .ok ()
      else .error (.portNotFound (pvalToStr v))
    | none => .ok ()
  else .ok ()

/-- The tag range check: an integer tag must lie in [0, 4095]. -/
def validateTag (param_dict : List (String × PVal))
    (param_set : List (String × PType)) : Except Err Unit :=
  if param_set.any (fun kt => kt.1 == "tag") then
    match param_dict.lookup "tag" with
    | some (.i t) =>
      if t < 0 ∨ t > 4095 then
        .error (.invalidInput "Invalid binding:profile. tag out of range")
      else .ok ()
    | _ => .ok ()
  else .ok ()

/-- _get_data_from_binding_profile: none models a port dict without a
set binding profile. Profiles contributing no recognized key are
returned as the empty dict; otherwise the matched group is validated
for types, parent-name resolution and tag range, in that order. -/
def get_data_from_binding_profile (ports : List String)
    (profile : Option (List (String × PVal))) :
    Except Err (List (String × PVal)) :=
  match profile with
  | none => .ok []
  | some prof =>
    match bindingProfileLoop prof OVN_PORT_BINDING_PROFILE_PARAMS [] with
    | .error e => .error e
    | .ok none => .ok []
    | .ok (some (param_dict, param_set)) => do
      validateParamTypes param_dict param_set
      validateParentName ports param_dict param_set
      validateTag param_dict param_set
      .ok param_dict

/-- The rows of the model store owned by the orchestration framework. -/
structure ModelState where
  networks : List Network
deriving DecidableEq

/-- The names of the logical switches in the topology store. -/
structure TopoState where
  lswitches : List String
deriving DecidableEq

/-- delete_network: remove the model row, then best-effort removal of
the derived logical switch (failures are swallowed). -/
def plugin_delete_network (m : ModelState) (t : TopoState)
    (network_id : String) : ModelState × TopoState :=
  ({ networks := m.networks.filter (fun n => n.id != network_id) },
   { lswitches := t.lswitches.filter (fun s => s != ovn_name network_id) })

/-- create_network: provider-type validation, then the model row is
created; if the logical-switch creation fails the model row is
deleted again and the operation fails with service-unavailable. The
ovnFails flag models the outcome of the topology transaction. -/
def plugin_create_network (m : ModelState) (t : TopoState) (net : Network)
    (ovnFails : Bool) : Except Err Network × ModelState × TopoState :=
  if truthyStr net.physnet &&
      !(net.nettype == some "flat" || net.nettype == some "vlan") then
    (.error (.invalidInput "network type is not supported with provider networks"),
     m, t)
  else
    let m1 : ModelState := { networks := m.networks ++ [net] }
    if ovnFails then
      let mt := plugin_delete_network m1 t net.id
      (.error .serviceUnavailable, mt.1, mt.2)
    else
      (.ok net, m1, { lswitches := t.lswitches ++ [ovn_name net.id] })

/-- A topology-store command added to a transaction. -/
inductive OvnOp where
  | createLswitch (name : String)
  | createLport (name : String) (lswitch : String) (addresses : List String)
  | deleteLswitch (name : String)
  | deleteLport (name : String) (lswitch : String)
  | deleteAcl (lswitch : String) (lport : String)
  | addAcl (cmd : AclCmd)
deriving DecidableEq

/-- _update_acls_for_security_group: for every port bound to the
group and not excluded, delete its ACL entries and recompile them. -/
def update_acls_for_security_group (gsg : String → SecurityGroup)
    (get_subnet : String → Subnet) (bindings : List PortBinding)
    (get_port : String → Port) (security_group_id : String)
    (exclude_ports : List String) : List OvnOp :=
  (get_port_security_group_bindings bindings security_group_id).flatMap
    (fun b =>
      if exclude_ports.contains b.port_id then []
      else
        let port := get_port b.port_id
        OvnOp.deleteAcl (ovn_name port.network_id) port.id ::
          (add_acls gsg get_subnet bindings port).map OvnOp.addAcl)

/-- _refresh_remote_security_group: find every rule whose remote
group is the given group, collect the owning groups (a Python set,
modelled as the id list with duplicates erased), and refresh the ACLs
of each. all_rules lists (owning group id, rule) pairs. -/
def refresh_remote_security_group (gsg : String → SecurityGroup)
    (get_subnet : String → Subnet) (bindings : List PortBinding)
    (get_port : String → Port) (all_rules : List (String × SGRule))
    (sec_group : String) (exclude_ports : List String) : List OvnOp :=
  let refering := all_rules.filter
    (fun pr => pr.2.remote_group_id == some sec_group)
  let sg_ids := (refering.map Prod.fst).eraseDups
  sg_ids.flatMap (fun sg_id =>
    update_acls_for_security_group gsg get_subnet bindings get_port sg_id
      exclude_ports)

/-- _create_port_in_ovn: the commands added to the topology store for
a new port, in order: on a provider network first the private switch
with its localnet port, then the tenant logical port, then the
compiled ACLs, then the remote-group refresh loop. The loop reads the
port dict key "security_group" exactly as the source does. physnet
models the provider external-id of the network logical switch;
lswitch_found models whether that switch row exists. -/
def create_port_in_ovn (gsg : String → SecurityGroup)
    (get_subnet : String → Subnet) (bindings : List PortBinding)
    (get_port : String → Port) (all_rules : List (String × SGRule))
    (port : Port) (info : OvnPortInfo) (lswitch_found : Bool)
    (physnet : Option String) : Except Err (List OvnOp) :=
  if !lswitch_found then
    .error (.runtimeError "Logical Switch does not exist")
  else
    let provider := truthyStr physnet
    let lswitch_name := if provider then ovn_name port.id
      else ovn_name port.network_id
    let provider_ops := if provider then
        [OvnOp.createLswitch (ovn_name port.id),
         OvnOp.createLport ("provnet-" ++ port.id) lswitch_name ["unknown"]]
      else []
    let port_ops := [OvnOp.createLport port.id lswitch_name info.addresses]
    let acl_ops := (add_acls gsg get_subnet bindings port).map OvnOp.addAcl
    let refresh_ops := (port_get_list port "security_group").flatMap
      (fun sg_id =>
        refresh_remote_security_group gsg get_subnet bindings get_port
          all_rules sg_id [port.id])
    .ok (provider_ops ++ port_ops ++ acl_ops ++ refresh_ops)

/-- create_port: binding-profile validation runs first, inside the
model-store transaction; only afterwards are the port options
resolved and the topology commands produced. An error therefore
reaches the caller with no topology operation emitted. -/
def plugin_create_port (gsg : String → SecurityGroup)
    (get_subnet : String → Subnet) (bindings : List PortBinding)
    (get_port : String → Port) (all_rules : List (String × SGRule))
    (ports : List String) (port : Port)
    (profile : Option (List (String × PVal))) (lswitch_found : Bool)
    (physnet : Option String) : Except Err (List OvnOp) :=
  match get_data_from_binding_profile ports profile with
  | .error e => .error e
  | .ok binding_profile =>
    create_port_in_ovn gsg get_subnet bindings get_port all_rules port
      (get_ovn_port_options binding_profile port) lswitch_found physnet

/-- delete_port: when the private logical switch named after the port
exists (provider-network shape) it is deleted and nothing else; when
that delete raises because the switch is absent, the logical port and
its ACL entries are deleted from the shared switch. -/
def plugin_delete_port (port : Port) (private_lswitch_exists : Bool) :
    List OvnOp :=
  if private_lswitch_exists then
    [OvnOp.deleteLswitch (ovn_name port.id)]
  else
    [OvnOp.deleteLport port.id (ovn_name port.network_id),
     OvnOp.deleteAcl (ovn_name port.network_id) port.id]

/-- Whether the first character list starts the second. -/
def charsStartWith : List Char → List Char → Bool
  | [], _ => true
  | _ :: _, [] => false
  | a :: as, b :: bs => a == b && charsStartWith as bs

/-- Whether the first character list occurs inside the second. -/
def charsOccurIn : List Char → List Char → Bool
  | n, [] => charsStartWith n []
  | n, b :: bs => charsStartWith n (b :: bs) || charsOccurIn n bs

/-- Whether the needle occurs as a substring of the haystack. -/
def strContains (hay needle : String) : Bool :=
  charsOccurIn needle.data hay.data

/-- A fold step that preserves a predicate preserves it over foldl. -/
theorem foldl_preserves {α β : Type} (P : β → Prop) (f : β → α → β)
    (hf : ∀ b a, P b → P (f b a)) :
    ∀ (l : List α) (b : β), P b → P (l.foldl f b) := by
  intro l
  induction l with
  | nil => intro b hb; exact hb
  | cons a l ih => intro b hb; exact ih _ (hf _ _ hb)

/-- Whether no two commands of the list share an ACL dedup key. -/
def pairwiseKeysDistinct : List AclCmd → Bool
  | [] => true
  | c :: cs =>
    cs.all (fun c2 => !decide (aclKey c2 = aclKey c)) && pairwiseKeysDistinct cs

theorem pairwiseKeysDistinct_iff (l : List AclCmd) :
    pairwiseKeysDistinct l = true ↔ (l.map aclKey).Nodup := by
  induction l with
  | nil => simp [pairwiseKeysDistinct]
  | cons c cs ih =>
    simp only [pairwiseKeysDistinct, Bool.and_eq_true, ih, List.map_cons,
      List.nodup_cons, List.all_eq_true, List.mem_map, Bool.not_eq_true',
      decide_eq_false_iff_not]
    constructor
    · rintro ⟨hne, hnd⟩
      refine ⟨?_, hnd⟩
      rintro ⟨x, hx, hxe⟩
      exact hne x hx hxe
    · rintro ⟨hni, hnd⟩
      exact ⟨fun x hx hxe => hni ⟨x, hx, hxe⟩, hnd⟩

/-- Claim C7: a rule with protocol tcp, port_range_min = -1 and
port_range_max = 80 compiles to a match holding exactly the protocol
tag and the upper-bound clause tcp.dst <= 80, with no lower-bound
clause; and in general a bound of -1 is treated as unset and yields
no clause for that bound. -/
theorem port_range_boundary (r : SGRule) (icmp : Option String) :
    acl_protocol_and_ports
      { r with protocol := some "tcp", port_range_min := some (-1),
               port_range_max := some 80 } icmp = " && tcp && tcp.dst <= 80"
    ∧ strContains " && tcp && tcp.dst <= 80" "tcp.dst <= 80" = true
    ∧ strContains " && tcp && tcp.dst <= 80" "tcp.dst >=" = false
    ∧ (∀ (r2 : SGRule) (i2 : Option String),
        acl_protocol_and_ports { r2 with port_range_min := some (-1) } i2 =
        acl_protocol_and_ports { r2 with port_range_min := none } i2)
    ∧ (∀ (r2 : SGRule) (i2 : Option String),
        acl_protocol_and_ports { r2 with port_range_max := some (-1) } i2 =
        acl_protocol_and_ports { r2 with port_range_max := none } i2) := by
  exact ⟨rfl, by decide, by decide, fun r2 i2 => rfl, fun r2 i2 => rfl⟩

/-- Claim C10, counterexample: a tcp rule with port_range_min = -2
(nonzero, different from -1, not strictly positive) does emit a
lower-bound clause, refuting the claim that only strictly positive
bounds different from -1 emit a clause. -/
theorem port_bound_zero_counterexample :
    acl_protocol_and_ports
      { direction := .ingress, ethertype := "IPv4", remote_ip_prefix := none,
        remote_group_id := none, protocol := some "tcp",
        port_range_min := some (-2), port_range_max := none }
      (some "icmp4") = " && tcp && tcp.dst >= -2"
    ∧ strContains " && tcp && tcp.dst >= -2" "tcp.dst >=" = true := by
  exact ⟨rfl, by decide⟩

/-- Claim C10 (amended): for tcp/udp rules a bound of 0 or None
behaves exactly like the unset value -1 and emits no clause for that
bound, but any nonzero bound different from -1 emits a clause, even a
negative one such as -2 or 22 as lower bound. -/
theorem port_bound_zero_unset (r : SGRule) (icmp : Option String) :
    (acl_protocol_and_ports { r with port_range_min := some 0 } icmp =
      acl_protocol_and_ports { r with port_range_min := some (-1) } icmp)
    ∧ (acl_protocol_and_ports { r with port_range_min := none } icmp =
        acl_protocol_and_ports { r with port_range_min := some (-1) } icmp)
    ∧ (acl_protocol_and_ports { r with port_range_max := some 0 } icmp =
        acl_protocol_and_ports { r with port_range_max := some (-1) } icmp)
    ∧ (acl_protocol_and_ports { r with port_range_max := none } icmp =
        acl_protocol_and_ports { r with port_range_max := some (-1) } icmp)
    ∧ (acl_protocol_and_ports
        { r with protocol := some "udp", port_range_min := some 0,
                 port_range_max := some 0 } icmp = " && udp")
    ∧ (acl_protocol_and_ports
        { r with protocol := some "tcp", port_range_min := some (-2),
                 port_range_max := none } icmp = " && tcp && tcp.dst >= -2")
    ∧ (acl_protocol_and_ports
        { r with protocol := some "tcp", port_range_min := some 22,
                 port_range_max := none } icmp = " && tcp && tcp.dst >= 22") := by
  exact ⟨rfl, rfl, rfl, rfl, rfl, rfl, rfl⟩

/-- Whether a topology command is within the footprint port deletion
is allowed to touch: anything except adding an ACL entry or deleting
the ACL entries of a different port. -/
def deleteFootprintOk (port : Port) : OvnOp → Bool
  | .addAcl _ => false
  | .deleteAcl _ lp => lp == port.id
  | _ => true

/-- Claim C9: deleting a port either deletes only the private logical
switch named after the port (provider shape) or only the logical port
and its own ACL entries (shared-switch shape); it never adds ACL
entries and never deletes ACL entries of another port, so other
ports keep their compiled matches untouched. -/
theorem delete_port_frame (port : Port) (b : Bool) :
    plugin_delete_port port true = [OvnOp.deleteLswitch (ovn_name port.id)]
    ∧ plugin_delete_port port false =
        [OvnOp.deleteLport port.id (ovn_name port.network_id),
         OvnOp.deleteAcl (ovn_name port.network_id) port.id]
    ∧ (plugin_delete_port port b).all (deleteFootprintOk port) = true := by
  refine ⟨rfl, rfl, ?_⟩
  cases b <;> simp [plugin_delete_port, deleteFootprintOk]

/-- Claim C1: the port-creation path never regenerates ACLs of any
port: the remote-security-group refresh loop of _create_port_in_ovn
reads the port dict key "security_group", which does not exist (the
framework key is "security_groups"), so the loop body never runs and
no delete-then-recompile reaches ports of groups that reference the
new port's groups via remote-group rules. -/
theorem create_port_in_ovn_no_acl_regen (gsg : String → SecurityGroup)
    (get_subnet : String → Subnet) (bindings : List PortBinding)
    (get_port : String → Port) (all_rules : List (String × SGRule))
    (port : Port) (info : OvnPortInfo) (lswitch_found : Bool)
    (physnet : Option String) :
    (match create_port_in_ovn gsg get_subnet bindings get_port all_rules
        port info lswitch_found physnet with
      | .error _ => true
      | .ok ops => ops.all (fun op =>
          match op with
          | OvnOp.deleteAcl _ _ => false
          | _ => true)) = true := by
  cases lswitch_found with
  | false => rfl
  | true =>
    by_cases hp : truthyStr physnet = true
    · simp [create_port_in_ovn, port_get_list, hp, List.all_append, List.all_map]
    · simp only [Bool.not_eq_true] at hp
      simp [create_port_in_ovn, port_get_list, hp, List.all_append, List.all_map]

/-- Claim C4, counterexample: a non-VTEP port whose fixed_ips key
holds the empty list (the normal representation of a port with no
fixed IPs) resolves to an empty addresses list, not to the bare MAC. -/
theorem plain_port_addresses_counterexample :
    (get_ovn_port_options []
      { id := "p1", network_id := "n1", name := "", mac_address := "00:01",
        admin_state_up := true, fixed_ips := some [],
        security_groups := [], allowed_address_pairs := [] }).addresses = []
    ∧ (get_ovn_port_options []
      { id := "p1", network_id := "n1", name := "", mac_address := "00:01",
        admin_state_up := true, fixed_ips := some [],
        security_groups := [], allowed_address_pairs := [] }).addresses
      ≠ ["00:01"] := by
  exact ⟨rfl, by decide⟩

/-- Claim C4 (amended): for a non-VTEP port the resolved addresses
list carries one "<mac> <ip>" entry per fixed IP whenever the
fixed_ips key is present (hence the empty list when the port has no
fixed IPs), and the bare MAC only when the fixed_ips key is absent
from the port dict. -/
theorem plain_port_addresses (bp : List (String × PVal)) (port : Port)
    (h : truthyPVal (bp.lookup "vtep_physical_switch") = false) :
    (∀ ips, port.fixed_ips = some ips →
      (get_ovn_port_options bp port).addresses =
        ips.map (fun ip => port.mac_address ++ " " ++ ip.ip_address))
    ∧ (port.fixed_ips = none →
        (get_ovn_port_options bp port).addresses = [port.mac_address]) := by
  constructor
  · intro ips hips
    simp [get_ovn_port_options, h, hips]
  · intro hnone
    simp [get_ovn_port_options, h, hnone]

/-- Claim C4 witness: the amended statement evaluated on a concrete
two-IP port. -/
theorem plain_port_addresses_witness :
    truthyPVal (([] : List (String × PVal)).lookup "vtep_physical_switch")
      = false
    ∧ (get_ovn_port_options []
        { id := "p2", network_id := "n1", name := "", mac_address := "aa:bb",
          admin_state_up := true,
          fixed_ips := some [{ subnet_id := "s1", ip_address := "10.0.0.4" },
                             { subnet_id := "s2", ip_address := "10.0.1.9" }],
          security_groups := [], allowed_address_pairs := [] }).addresses =
        ["aa:bb 10.0.0.4", "aa:bb 10.0.1.9"] := by
  refine ⟨by decide, ?_⟩
  have h := (plain_port_addresses []
    { id := "p2", network_id := "n1", name := "", mac_address := "aa:bb",
      admin_state_up := true,
      fixed_ips := some [{ subnet_id := "s1", ip_address := "10.0.0.4" },
                         { subnet_id := "s2", ip_address := "10.0.1.9" }],
      security_groups := [], allowed_address_pairs := [] } (by decide)).1
    [{ subnet_id := "s1", ip_address := "10.0.0.4" },
     { subnet_id := "s2", ip_address := "10.0.1.9" }] rfl
  rw [h]
  decide

/-- Claim C6: a rule carrying a remote group id whose member-port set
minus the subject port is empty yields no ACL command (the builder
signals no entry, not an error) and inserting that absent command
into the dedup dictionary leaves it unchanged, so no entry is
submitted for the rule. -/
theorem empty_remote_group_elision (bindings : List PortBinding)
    (port : Port) (r : SGRule)
    (h1 : truthyStr r.remote_group_id = true)
    (h2 : (get_port_security_group_bindings bindings
        (r.remote_group_id.getD "")).filter
        (fun p => p.port_id != port.id) = []) :
    add_sg_rule_acl_for_port bindings port r = none
    ∧ ∀ acls, add_acl_cmd acls (add_sg_rule_acl_for_port bindings port r)
        = acls := by
  have hmain : add_sg_rule_acl_for_port bindings port r = none := by
    simp [add_sg_rule_acl_for_port, acl_remote_group_id, h1, h2]
  exact ⟨hmain, fun acls => by rw [hmain]; rfl⟩

/-- Claim C6 witness: a concrete rule whose remote group has no
member besides the subject port. -/
theorem empty_remote_group_elision_witness :
    truthyStr (some "sgB") = true
    ∧ (get_port_security_group_bindings
        [{ port_id := "p1", security_group_id := "sgB" }]
        ((some "sgB").getD "")).filter (fun p => p.port_id != "p1") = []
    ∧ add_sg_rule_acl_for_port
        [{ port_id := "p1", security_group_id := "sgB" }]
        { id := "p1", network_id := "n1", name := "", mac_address := "00:01",
          admin_state_up := true, fixed_ips := some [],
          security_groups := ["sgA"], allowed_address_pairs := [] }
        { direction := .ingress, ethertype := "IPv4",
          remote_ip_prefix := none, remote_group_id := some "sgB",
          protocol := none, port_range_min := none, port_range_max := none }
      = none := by
  refine ⟨by decide, by decide, ?_⟩
  exact (empty_remote_group_elision
    [{ port_id := "p1", security_group_id := "sgB" }]
    { id := "p1", network_id := "n1", name := "", mac_address := "00:01",
      admin_state_up := true, fixed_ips := some [],
      security_groups := ["sgA"], allowed_address_pairs := [] }
    { direction := .ingress, ethertype := "IPv4",
      remote_ip_prefix := none, remote_group_id := some "sgB",
      protocol := none, port_range_min := none, port_range_max := none }
    (by decide) (by decide)).1

/-- Claim C3: when the model row of a network is created and the
logical-switch creation then fails, the compensating delete removes
the just-created row (the model store is exactly as before) and the
operation fails with service-unavailable. -/
theorem create_network_rollback (m : ModelState) (t : TopoState)
    (net : Network)
    (hfresh : ∀ n ∈ m.networks, n.id ≠ net.id)
    (hvalid : truthyStr net.physnet = false ∨ net.nettype = some "flat"
      ∨ net.nettype = some "vlan") :
    (plugin_create_network m t net true).1 = .error .serviceUnavailable
    ∧ (plugin_create_network m t net true).2.1.networks = m.networks := by
  have hcond : (truthyStr net.physnet &&
      !(net.nettype == some "flat" || net.nettype == some "vlan")) = false := by
    rcases hvalid with h | h | h
    · simp [h]
    · simp [h]
    · simp [h]
  have hfilter : m.networks.filter (fun n => n.id != net.id) = m.networks := by
    rw [List.filter_eq_self]
    intro n hn
    simpa using hfresh n hn
  constructor
  · simp only [plugin_create_network, hcond, Bool.false_eq_true, if_false]
    simp
  · simp only [plugin_create_network, hcond, Bool.false_eq_true, if_false,
      plugin_delete_network, List.filter_append, hfilter]
    simp

/-- A pre-existing network row used by the rollback witness. -/
def exNetOld : Network :=
  { id := "n0", name := "old", physnet := none, nettype := none,
    segid := none }

/-- The network whose creation is rolled back in the witness. -/
def exNetNew : Network :=
  { id := "n1", name := "net1", physnet := none, nettype := none,
    segid := none }

/-- Claim C3 witness: the rollback evaluated on a concrete store. -/
theorem create_network_rollback_witness :
    (∀ n ∈ [exNetOld], n.id ≠ exNetNew.id)
    ∧ (plugin_create_network { networks := [exNetOld] } { lswitches := [] }
        exNetNew true).1 = .error .serviceUnavailable
    ∧ (plugin_create_network { networks := [exNetOld] } { lswitches := [] }
        exNetNew true).2.1.networks = [exNetOld] := by
  refine ⟨by decide, ?_, ?_⟩
  · exact (create_network_rollback { networks := [exNetOld] }
      { lswitches := [] } exNetNew (by decide) (Or.inl (by decide))).1
  · exact (create_network_rollback { networks := [exNetOld] }
      { lswitches := [] } exNetNew (by decide) (Or.inl (by decide))).2

theorem add_sg_rule_acl_for_port_fields (bindings : List PortBinding)
    (port : Port) (r : SGRule) (c : AclCmd)
    (h : add_sg_rule_acl_for_port bindings port r = some c) :
    c.action = ACL_ACTION_ALLOW_RELATED ∧ c.priority = ACL_PRIORITY_ALLOW
    ∧ c.lport = port.id := by
  simp only [add_sg_rule_acl_for_port] at h
  split at h
  · simp at h
  · rw [Option.some.injEq] at h
    subst h
    exact ⟨rfl, rfl, rfl⟩

theorem add_acl_dhcp_fields (get_subnet : String → Subnet) (port : Port)
    (c : AclCmd) (h : c ∈ add_acl_dhcp get_subnet port) :
    c.action = ACL_ACTION_ALLOW ∧ c.priority = ACL_PRIORITY_ALLOW
    ∧ c.lport = port.id := by
  simp only [add_acl_dhcp, List.mem_filterMap] at h
  obtain ⟨ip, _, hf⟩ := h
  split at hf
  · simp at hf
  · rw [Option.some.injEq] at hf
    subst hf
    exact ⟨rfl, rfl, rfl⟩

theorem drop_all_fields (port : Port) (c : AclCmd)
    (h : c ∈ drop_all_ip_traffic_for_port port) :
    c.action = ACL_ACTION_DROP ∧ c.priority = ACL_PRIORITY_DROP
    ∧ c.lport = port.id := by
  simp only [drop_all_ip_traffic_for_port, List.map_cons, List.map_nil,
    List.mem_cons, List.not_mem_nil, or_false] at h
  rcases h with h | h <;> (subst h; exact ⟨rfl, rfl, rfl⟩)

theorem rule_acls_eq_nil (gsg : String → SecurityGroup)
    (bindings : List PortBinding) (port : Port)
    (h : ∀ sgid ∈ port.security_groups,
      (gsg sgid).security_group_rules = []) :
    rule_acls gsg bindings port = [] := by
  have haux : ∀ (l : List String) (acc : List (AclKey × AclCmd)),
      (∀ id ∈ l, (gsg id).security_group_rules = []) →
      l.foldl (fun acls sg_id =>
        (gsg sg_id).security_group_rules.foldl
          (fun acls r =>
            add_acl_cmd acls (add_sg_rule_acl_for_port bindings port r))
          acls) acc = acc := by
    intro l
    induction l with
    | nil => intro acc _; rfl
    | cons a l ih =>
      intro acc hall
      rw [List.foldl_cons, hall a (List.mem_cons_self a l)]
      exact ih acc (fun id hid => hall id (List.mem_cons_of_mem a hid))
  exact haux port.security_groups [] h

/-- Claim C5: a port with at least one security group, all of whose
attached groups carry no rules, compiles to exactly the two drop-all
entries followed by the DHCP bootstrap allow entries, and the
compiled set contains no allow-related entry. -/
theorem default_deny (gsg : String → SecurityGroup)
    (get_subnet : String → Subnet) (bindings : List PortBinding)
    (port : Port)
    (h1 : port.security_groups ≠ [])
    (h2 : ∀ sgid ∈ port.security_groups,
      (gsg sgid).security_group_rules = []) :
    add_acls gsg get_subnet bindings port =
      drop_all_ip_traffic_for_port port ++ add_acl_dhcp get_subnet port
    ∧ (drop_all_ip_traffic_for_port port).length = 2
    ∧ (add_acls gsg get_subnet bindings port).all
        (fun c => c.action != ACL_ACTION_ALLOW_RELATED) = true := by
  have hne : port.security_groups.isEmpty = false := by
    cases hsg : port.security_groups with
    | nil => exact absurd hsg h1
    | cons a l => rfl
  have hmain : add_acls gsg get_subnet bindings port =
      drop_all_ip_traffic_for_port port ++ add_acl_dhcp get_subnet port := by
    simp [add_acls, port_get_list, hne,
      rule_acls_eq_nil gsg bindings port h2]
  refine ⟨hmain, rfl, ?_⟩
  rw [hmain, List.all_append]
  have hdrop : (drop_all_ip_traffic_for_port port).all
      (fun c => c.action != ACL_ACTION_ALLOW_RELATED) = true := by
    rw [List.all_eq_true]
    intro c hc
    rw [(drop_all_fields port c hc).1]
    decide
  have hdhcp : (add_acl_dhcp get_subnet port).all
      (fun c => c.action != ACL_ACTION_ALLOW_RELATED) = true := by
    rw [List.all_eq_true]
    intro c hc
    rw [(add_acl_dhcp_fields get_subnet port c hc).1]
    decide
  rw [hdrop, hdhcp]
  rfl

/-- The subnet store used by the compiler witnesses: every subnet id
resolves to an IPv4 subnet with a fixed CIDR. -/
def exSubnets : String → Subnet :=
  fun i => { id := i, ip_version := 4, cidr := "10.0.0.0/24" }

/-- The group store used by the default-deny witness: every group id
resolves to a group with no rules. -/
def exEmptyGroups : String → SecurityGroup :=
  fun i => { id := i, security_group_rules := [] }

/-- The port used by the default-deny witness: one security group,
one fixed IP. -/
def exSecuredPort : Port :=
  { id := "p1", network_id := "n1", name := "", mac_address := "00:01",
    admin_state_up := true,
    fixed_ips := some [{ subnet_id := "s1", ip_address := "10.0.0.5" }],
    security_groups := ["g1"], allowed_address_pairs := [] }

/-- Claim C5 witness: the default-deny conclusion evaluated on a
concrete one-group zero-rule port. -/
theorem default_deny_witness :
    exSecuredPort.security_groups ≠ []
    ∧ (∀ sgid ∈ exSecuredPort.security_groups,
        (exEmptyGroups sgid).security_group_rules = [])
    ∧ add_acls exEmptyGroups exSubnets [] exSecuredPort =
        drop_all_ip_traffic_for_port exSecuredPort ++
        add_acl_dhcp exSubnets exSecuredPort
    ∧ (add_acls exEmptyGroups exSubnets [] exSecuredPort).all
        (fun c => c.action != ACL_ACTION_ALLOW_RELATED) = true := by
  refine ⟨by decide, by decide, ?_, ?_⟩
  · exact (default_deny exEmptyGroups exSubnets [] exSecuredPort
      (by decide) (by decide)).1
  · exact (default_deny exEmptyGroups exSubnets [] exSecuredPort
      (by decide) (by decide)).2.2

/-- Invariant of the per-port dedup dictionary: stored keys are the
keys of their commands, no key occurs twice, and every stored command
is an allow-related rule entry. -/
def aclDictInv (acls : List (AclKey × AclCmd)) : Prop :=
  (acls.map Prod.fst).Nodup ∧
  ∀ kv ∈ acls, kv.1 = aclKey kv.2 ∧ kv.2.action = ACL_ACTION_ALLOW_RELATED

theorem add_acl_cmd_preserves (bindings : List PortBinding) (port : Port)
    (r : SGRule) (acls : List (AclKey × AclCmd)) (h : aclDictInv acls) :
    aclDictInv (add_acl_cmd acls (add_sg_rule_acl_for_port bindings port r)) := by
  cases hres : add_sg_rule_acl_for_port bindings port r with
  | none => exact h
  | some cmd =>
    simp only [add_acl_cmd]
    by_cases hany : acls.any (fun kv => decide (kv.1 = aclKey cmd)) = true
    · rw [if_pos hany]
      exact h
    · rw [if_neg hany]
      have hnotin : aclKey cmd ∉ acls.map Prod.fst := by
        simp only [List.any_eq_true, decide_eq_true_eq, not_exists,
          not_and] at hany
        rw [List.mem_map]
        rintro ⟨kv, hkv, hk⟩
        exact hany kv hkv hk
      constructor
      · rw [List.map_append, List.nodup_append]
        refine ⟨h.1, by simp, ?_⟩
        intro k hk1 hk2
        simp only [List.map_cons, List.map_nil, List.mem_singleton] at hk2
        subst hk2
        exact hnotin hk1
      · intro kv hkv
        rcases List.mem_append.mp hkv with hold | hnew
        · exact h.2 kv hold
        · simp only [List.mem_singleton] at hnew
          subst hnew
          exact ⟨rfl,
            (add_sg_rule_acl_for_port_fields bindings port r cmd hres).1⟩

theorem rule_acls_inv (gsg : String → SecurityGroup)
    (bindings : List PortBinding) (port : Port) :
    aclDictInv (rule_acls gsg bindings port) := by
  unfold rule_acls
  refine foldl_preserves aclDictInv _ ?_ _ _ ?_
  · intro acc sg_id hacc
    exact foldl_preserves aclDictInv _
      (fun acc2 r2 hacc2 => add_acl_cmd_preserves bindings port r2 acc2 hacc2)
      _ acc hacc
  · exact ⟨List.nodup_nil, by simp⟩

theorem rule_acls_action (gsg : String → SecurityGroup)
    (bindings : List PortBinding) (port : Port) :
    ∀ c ∈ (rule_acls gsg bindings port).map Prod.snd,
      c.action = ACL_ACTION_ALLOW_RELATED := by
  intro c hc
  rw [List.mem_map] at hc
  obtain ⟨kv, hkv, rfl⟩ := hc
  exact ((rule_acls_inv gsg bindings port).2 kv hkv).2

theorem aclKey_ne_of_action {c d : AclCmd} (h : c.action ≠ d.action) :
    aclKey c ≠ aclKey d := by
  intro he
  exact h (congrArg (fun t => t.2.2.1) he)

/-- The port of the dedup counterexample: two fixed IPs on the same
IPv4 subnet, one rule-less security group. -/
def exDupIpPort : Port :=
  { id := "p9", network_id := "n1", name := "", mac_address := "00:09",
    admin_state_up := true,
    fixed_ips := some [{ subnet_id := "s1", ip_address := "10.0.0.5" },
                       { subnet_id := "s1", ip_address := "10.0.0.6" }],
    security_groups := ["g1"], allowed_address_pairs := [] }

/-- Claim C2, counterexample: a secured port with two fixed IPs on
the same subnet gets two identical DHCP bootstrap entries in the
submitted set, so two submitted entries share (direction, priority,
action, match). -/
theorem acl_dedup_counterexample :
    pairwiseKeysDistinct (add_acls exEmptyGroups exSubnets [] exDupIpPort)
      = false := by
  decide

/-- Claim C2 (amended): among the two drop-all entries and the
per-rule allow-related entries of one compilation pass no two share
(direction, priority, action, match) — the per-rule entries are
deduplicated through the keyed dictionary before submission — and no
DHCP bootstrap entry shares a key with any of them; only the DHCP
bootstrap entries themselves, added to the transaction without
dedup, can repeat. The last conjunct records the submitted set. -/
theorem acl_dedup (gsg : String → SecurityGroup)
    (get_subnet : String → Subnet) (bindings : List PortBinding)
    (port : Port) :
    pairwiseKeysDistinct (drop_all_ip_traffic_for_port port ++
      (rule_acls gsg bindings port).map Prod.snd) = true
    ∧ (add_acl_dhcp get_subnet port).all (fun d =>
        !((drop_all_ip_traffic_for_port port ++
            (rule_acls gsg bindings port).map Prod.snd).any
          (fun c => decide (aclKey c = aclKey d)))) = true
    ∧ add_acls gsg get_subnet bindings port =
        (if (port_get_list port "security_groups").isEmpty then []
         else drop_all_ip_traffic_for_port port ++
           add_acl_dhcp get_subnet port ++
           (rule_acls gsg bindings port).map Prod.snd) := by
  have hkeys : ((rule_acls gsg bindings port).map Prod.snd).map aclKey =
      (rule_acls gsg bindings port).map Prod.fst := by
    rw [List.map_map]
    refine List.map_congr_left ?_
    intro kv hkv
    exact (((rule_acls_inv gsg bindings port).2 kv hkv).1).symm
  refine ⟨?_, ?_, rfl⟩
  · rw [pairwiseKeysDistinct_iff, List.map_append, List.nodup_append]
    refine ⟨by simp [drop_all_ip_traffic_for_port, aclKey], ?_, ?_⟩
    · rw [hkeys]
      exact (rule_acls_inv gsg bindings port).1
    · intro k hk1 hk2
      rw [hkeys, List.mem_map] at hk2
      obtain ⟨kv, hkv, hke⟩ := hk2
      have hact := (rule_acls_inv gsg bindings port).2 kv hkv
      rw [List.mem_map] at hk1
      obtain ⟨c, hc, hk⟩ := hk1
      have hcd := (drop_all_fields port c hc).1
      have : aclKey c = aclKey kv.2 := by rw [hk, ← hke, hact.1]
      have hacteq : c.action = kv.2.action :=
        congrArg (fun t => t.2.2.1) this
      rw [hcd, hact.2] at hacteq
      exact absurd hacteq (by decide)
  · rw [List.all_eq_true]
    intro d hd
    have hdact := (add_acl_dhcp_fields get_subnet port d hd).1
    rw [Bool.not_eq_true', List.any_eq_false]
    intro c hc
    simp only [decide_eq_true_eq]
    rcases List.mem_append.mp hc with hcd | hcr
    · refine aclKey_ne_of_action ?_
      rw [(drop_all_fields port c hcd).1, hdact]
      decide
    · refine aclKey_ne_of_action ?_
      rw [rule_acls_action gsg bindings port c hcr, hdact]
      decide

/-- Claim C8, counterexample: a binding profile holding only an
unrecognized key is not rejected — validation returns the empty
parameter dict and port creation proceeds — refuting the claim that
any extra key raises an invalid-input error. -/
theorem binding_profile_counterexample :
    get_data_from_binding_profile [] (some [("foo", PVal.s "x")]) =
      .ok [] := by
  rfl

/-- Claim C8 (amended): a binding profile containing none of the
recognized keys is silently accepted as empty; when at least one
recognized key is present the key set must exactly match that
parameter group (a partially present group raises invalid input, and
a fully present group with any extra key raises invalid input); a
matched trunk profile whose integer tag lies outside [0, 4095] raises
invalid input; a parent name not resolving to an existing port fails
with port-not-found; and every such rejection reaches the caller of
port creation before any topology command is produced. -/
theorem binding_profile_validation (ports : List String)
    (prof : List (String × PVal))
    (_hnd : (prof.map Prod.fst).Nodup) :
    (prof.lookup "parent_name" = none → prof.lookup "tag" = none →
      prof.lookup "vtep_physical_switch" = none →
      prof.lookup "vtep_logical_switch" = none →
      get_data_from_binding_profile ports (some prof) = .ok [])
    ∧ (∀ v, prof.lookup "parent_name" = some v → prof.lookup "tag" = none →
        get_data_from_binding_profile ports (some prof) =
          .error (.invalidInput "Invalid binding:profile. keys are all required."))
    ∧ (∀ v, prof.lookup "parent_name" = none → prof.lookup "tag" = some v →
        get_data_from_binding_profile ports (some prof) =
          .error (.invalidInput "Invalid binding:profile. keys are all required."))
    ∧ (∀ v, prof.lookup "parent_name" = none → prof.lookup "tag" = none →
        prof.lookup "vtep_physical_switch" = some v →
        prof.lookup "vtep_logical_switch" = none →
        get_data_from_binding_profile ports (some prof) =
          .error (.invalidInput "Invalid binding:profile. keys are all required."))
    ∧ (∀ v, prof.lookup "parent_name" = none → prof.lookup "tag" = none →
        prof.lookup "vtep_physical_switch" = none →
        prof.lookup "vtep_logical_switch" = some v →
        get_data_from_binding_profile ports (some prof) =
          .error (.invalidInput "Invalid binding:profile. keys are all required."))
    ∧ (∀ v w, prof.lookup "parent_name" = some v →
        prof.lookup "tag" = some w → prof.length ≠ 2 →
        get_data_from_binding_profile ports (some prof) =
          .error (.invalidInput "Invalid binding:profile. too many parameters"))
    ∧ (∀ v w, prof.lookup "parent_name" = none → prof.lookup "tag" = none →
        prof.lookup "vtep_physical_switch" = some v →
        prof.lookup "vtep_logical_switch" = some w → prof.length ≠ 2 →
        get_data_from_binding_profile ports (some prof) =
          .error (.invalidInput "Invalid binding:profile. too many parameters"))
    ∧ (∀ pv tv, prof.lookup "parent_name" = some (.s pv) →
        prof.lookup "tag" = some (.i tv) → prof.length = 2 →
        ports.contains pv = true → (tv < 0 ∨ tv > 4095) →
        get_data_from_binding_profile ports (some prof) =
          .error (.invalidInput "Invalid binding:profile. tag out of range"))
    ∧ (∀ pv tv, prof.lookup "parent_name" = some (.s pv) →
        prof.lookup "tag" = some (.i tv) → prof.length = 2 →
        ports.contains pv = false →
        get_data_from_binding_profile ports (some prof) =
          .error (.portNotFound pv))
    ∧ (∀ (gsg : String → SecurityGroup) (get_subnet : String → Subnet)
        (bindings : List PortBinding) (get_port : String → Port)
        (all_rules : List (String × SGRule)) (port : Port)
        (lswitch_found : Bool) (physnet : Option String) (e : Err),
        get_data_from_binding_profile ports (some prof) = .error e →
        plugin_create_port gsg get_subnet bindings get_port all_rules ports
          port (some prof) lswitch_found physnet = .error e) := by
  refine ⟨?_, ?_, ?_, ?_, ?_, ?_, ?_, ?_, ?_, ?_⟩
  · intro h1 h2 h3 h4
    simp [get_data_from_binding_profile, bindingProfileLoop,
      OVN_PORT_BINDING_PROFILE_PARAMS, h1, h2, h3, h4]
  · intro v h1 h2
    simp [get_data_from_binding_profile, bindingProfileLoop,
      OVN_PORT_BINDING_PROFILE_PARAMS, h1, h2]
  · intro v h1 h2
    simp [get_data_from_binding_profile, bindingProfileLoop,
      OVN_PORT_BINDING_PROFILE_PARAMS, h1, h2]
  · intro v h1 h2 h3 h4
    simp [get_data_from_binding_profile, bindingProfileLoop,
      OVN_PORT_BINDING_PROFILE_PARAMS, h1, h2, h3, h4]
  · intro v h1 h2 h3 h4
    simp [get_data_from_binding_profile, bindingProfileLoop,
      OVN_PORT_BINDING_PROFILE_PARAMS, h1, h2, h3, h4]
  · intro v w h1 h2 hlen
    simp [get_data_from_binding_profile, bindingProfileLoop,
      OVN_PORT_BINDING_PROFILE_PARAMS, h1, h2, hlen]
  · intro v w h1 h2 h3 h4 hlen
    simp [get_data_from_binding_profile, bindingProfileLoop,
      OVN_PORT_BINDING_PROFILE_PARAMS, h1, h2, h3, h4, hlen]
  · intro pv tv h1 h2 hlen hcont htv
    have hm : pv ∈ ports := by simpa using hcont
    simp only [get_data_from_binding_profile, bindingProfileLoop,
      OVN_PORT_BINDING_PROFILE_PARAMS, List.filterMap_cons,
      List.filterMap_nil, h1, h2, Option.map_some]
    rcases htv with h | h <;>
      simp [validateParamTypes, validateParentName, validateTag,
        ptypeMatches, pvalToStr, List.lookup, hlen, hm, h,
        Bind.bind, Except.bind]
  · intro pv tv h1 h2 hlen hcont
    have hm : pv ∉ ports := by simpa using hcont
    simp only [get_data_from_binding_profile, bindingProfileLoop,
      OVN_PORT_BINDING_PROFILE_PARAMS, List.filterMap_cons,
      List.filterMap_nil, h1, h2, Option.map_some]
    simp [validateParamTypes, validateParentName, validateTag,
      ptypeMatches, pvalToStr, List.lookup, hlen, hm,
      Bind.bind, Except.bind]
  · intro gsg get_subnet bindings get_port all_rules port lswitch_found
      physnet e he
    simp [plugin_create_port, he]

/-- Claim C8 witness: the amended validation evaluated on a concrete
partial trunk profile, which is rejected as invalid input. -/
theorem binding_profile_validation_witness :
    (([("parent_name", PVal.s "pp")].map
      (Prod.fst (α := String) (β := PVal))).Nodup)
    ∧ get_data_from_binding_profile ["pp"]
        (some [("parent_name", PVal.s "pp")]) =
      .error (.invalidInput "Invalid binding:profile. keys are all required.") := by
  refine ⟨by decide, ?_⟩
  exact (binding_profile_validation ["pp"] [("parent_name", PVal.s "pp")]
    (by decide)).2.1 (PVal.s "pp") (by decide) (by decide)

end NetworkingOvn
